import Mathlib

/-!
Shallow embedding of the pixel-game engine
(`src/lib/workers/worker.ts`, `src/lib/game/state.ts` and the `Game`
render-controller class) together with proofs of the specification's
claims about movement validation, idle-state decay, the demo progress
task, frame throttling, the cloud animation invariant and animation
settings updates.
-/

namespace PixelGame

/-- Terrain kinds, from the `TERRAIN` constant table in `types.ts`:
W(ater), B(each), F(orest), M(ountain), G(rassland), R(iver), S(wamp), H(ills). -/
inductive TerrainType
  | W | B | F | M | G | R | S | H
deriving DecidableEq, Repr

open TerrainType

/-- Per-kind terrain properties, from the `terrainProperties` record in
`worker.ts`.  `movementCost = none` stands for the JavaScript `Infinity`. -/
structure TerrainProps where
  walkable : Bool
  movementCost : Option ℚ
  name : String
deriving DecidableEq, Repr

/-- The `terrainProperties` lookup table of `worker.ts` (lines 80-89). -/
def terrainProperties : TerrainType → TerrainProps
  | .W => ⟨false, none, "Water"⟩
  | .B => ⟨true, some 1, "Beach"⟩
  | .F => ⟨true, some (12/10), "Forest"⟩
  | .M => ⟨false, none, "Mountain"⟩
  | .G => ⟨true, some 1, "Grassland"⟩
  | .R => ⟨true, some (15/10), "River"⟩
  | .S => ⟨true, some 2, "Swamp"⟩
  | .H => ⟨true, some (13/10), "Hills"⟩

/-- The `terrainNames` table of `types.ts`. -/
def terrainNames : TerrainType → String
  | .W => "Water"
  | .B => "Beach"
  | .F => "Forest"
  | .M => "Mountain"
  | .G => "Grassland"
  | .R => "River"
  | .S => "Swamp"
  | .H => "Hills"

/-- The fixed 15-row × 20-column terrain grid `terrainMap` of `worker.ts`
(lines 103-119), row-major: `terrainMap[y][x]`. -/
def terrainMap : List (List TerrainType) :=
  [ [W,W,W,W,W,W,W,W,W,W,W,W,W,W,W,W,W,W,W,W],
    [W,W,B,B,B,B,B,B,B,B,B,B,B,B,B,B,B,B,W,W],
    [W,B,G,G,F,F,F,H,H,M,H,H,F,F,F,G,G,B,B,W],
    [W,B,G,F,F,H,H,M,M,M,M,H,H,F,F,F,G,G,B,W],
    [W,B,F,F,H,H,M,M,M,M,M,M,H,H,F,F,F,G,B,W],
    [W,R,R,F,H,M,M,M,M,M,M,M,M,H,H,R,F,B,B,W],
    [W,S,R,F,H,H,M,M,M,M,M,H,R,F,F,F,G,B,B,W],
    [W,B,G,R,F,H,H,M,M,M,M,H,R,F,F,F,G,B,B,W],
    [W,B,G,F,R,F,H,H,H,H,H,R,F,F,F,G,B,B,W,W],
    [W,B,G,F,F,R,F,F,F,R,R,F,F,F,G,G,B,B,W,W],
    [W,B,G,F,F,F,R,R,R,F,F,F,F,G,G,B,B,W,W,W],
    [W,S,R,F,F,F,F,F,F,F,F,G,G,G,B,B,W,W,W,W],
    [W,B,B,G,G,G,G,G,G,G,G,G,B,B,B,W,W,W,W,W],
    [W,W,B,B,B,B,B,B,B,B,B,B,B,B,W,W,W,W,W,W],
    [W,W,W,W,W,W,W,W,W,W,W,W,W,W,W,W,W,W,W,W] ]

/-- Integer grid coordinates, the `Position` interface of `types.ts`. -/
structure Position where
  x : ℤ
  y : ℤ
deriving DecidableEq, Repr

/-- The `Direction` union type of `types.ts`: four movement directions plus
the facing-only `back`/`front`. -/
inductive Direction
  | up | down | left | right | back | front
deriving DecidableEq, Repr

/-- The four directions `handleMovement` accepts (its `switch` has a case
for each; anything else throws). -/
def Direction.isMovement : Direction → Bool
  | .up => true
  | .down => true
  | .left => true
  | .right => true
  | _ => false

/-- Rendering of a direction into movement messages (template literals in
`handleMovement` interpolate the direction string directly). -/
def Direction.toName : Direction → String
  | .up => "up"
  | .down => "down"
  | .left => "left"
  | .right => "right"
  | .back => "back"
  | .front => "front"

/-- Function `isInBounds` of `worker.ts` (lines 232-234): checks the coordinates
against `terrainMap[0].length` and `terrainMap.length`. -/
def isInBounds (p : Position) : Bool :=
  0 ≤ p.x && p.x < (terrainMap.headD []).length && 0 ≤ p.y && p.y < terrainMap.length

/-- Grid lookup `terrainMap[p.y][p.x]`, `none` when the index is outside
the array (JavaScript `undefined`). -/
def terrainAt? (p : Position) : Option TerrainType :=
  if 0 ≤ p.x ∧ 0 ≤ p.y then
    (terrainMap.get? p.y.toNat).bind fun row => row.get? p.x.toNat
  else none

/-- Function `canMove` of `worker.ts` (lines 221-225): in bounds and the target
terrain is walkable. -/
def canMove (p : Position) : Bool :=
  if isInBounds p then
    match terrainAt? p with
    | some t => (terrainProperties t).walkable
    | none => false
  else false

/-- The unit-vector update of `handleMovement`'s `switch` on the four
movement directions (lines 180-186); facing-only directions have no unit
vector (the code throws). -/
def applyDir (p : Position) : Direction → Position
  | .left => ⟨p.x - 1, p.y⟩
  | .right => ⟨p.x + 1, p.y⟩
  | .up => ⟨p.x, p.y - 1⟩
  | .down => ⟨p.x, p.y + 1⟩
  | _ => p

/-- The `IdleState` constant object of `game/state.ts`. -/
inductive IdleState
  | active | resting | idle | sleeping
deriving DecidableEq, Repr

/-- String value of each idle state ('active' | 'resting' | 'idle' |
'sleeping' in `game/state.ts`). -/
def IdleState.toName : IdleState → String
  | .active => "active"
  | .resting => "resting"
  | .idle => "idle"
  | .sleeping => "sleeping"

/-- Threshold `IdleThresholds.RESTING` of `game/state.ts` (ms). -/
def restingThreshold : ℤ := 200

/-- Threshold `IdleThresholds.IDLE` of `game/state.ts` (ms). -/
def idleThreshold : ℤ := 5000

/-- Threshold `IdleThresholds.SLEEPING` of `game/state.ts` (ms). -/
def sleepingThreshold : ℤ := 30000

/-- The idle-state computation inside `startIdleCheck`'s interval callback
(`worker.ts` lines 55-66), as a function of
`timeSinceLastActivity = Date.now() - gameState.lastActivityTime`. -/
def computeIdleState (timeSince : ℤ) : IdleState :=
  if timeSince ≥ sleepingThreshold then .sleeping
  else if timeSince ≥ idleThreshold then .idle
  else if timeSince ≥ restingThreshold then .resting
  else .active

/-- Severity rank of an idle state in the order
Active → Resting → Idle → Sleeping (increasing inactivity). -/
def IdleState.rank : IdleState → ℕ
  | .active => 0
  | .resting => 1
  | .idle => 2
  | .sleeping => 3

/-- The `STATUS` constants of `types.ts`. -/
inductive Status
  | finished | processing | idle | error
deriving DecidableEq, Repr

/-- The worker-side game state (`WorkerGameState` in `worker.ts`): the
`GameState` of `types.ts` extended with `currentTerrain`. Timestamps are
milliseconds (`Date.now()` values) as integers. -/
structure WGameState where
  position : Position
  facing : Direction
  isMoving : Bool
  terrain : TerrainType
  currentTerrain : TerrainType
  status : Status
  message : String
  isStarted : Bool
  idleState : IdleState
  lastActivityTime : ℤ
deriving DecidableEq, Repr

/-- The module-level initial `gameState` of `worker.ts` (lines 36-47);
`t0` is the `Date.now()` evaluated when the worker module loads. -/
def initialWorkerState (t0 : ℤ) : WGameState :=
  { position := ⟨2, 2⟩
    facing := .down
    isMoving := false
    terrain := .G
    currentTerrain := .G
    status := .idle
    message := ""
    isStarted := false
    idleState := .active
    lastActivityTime := t0 }

/-- The `WorkerResponse` payload posted back to the main thread
(`worker.ts` lines 15-23).  `terrainMapIncluded` records whether the
`terrainMap` field was attached (its value is always the fixed map). -/
structure WorkerResponse where
  status : Status
  message : Option String
  gameState : Option WGameState
  terrainMapIncluded : Bool
  step : Option ℕ
  total : Option ℕ
  result : Option ℚ
deriving DecidableEq, Repr

/-- The success message template of `handleMovement` (line 190):
`Moved {direction} from {oldTerrainName} to {newTerrainName}`. -/
def movedMessage (d : Direction) (oldT newT : TerrainType) : String :=
  let dn := d.toName
  let a := terrainNames oldT
  let b := terrainNames newT
  "Moved " ++ dn ++ " from " ++ a ++ " to " ++ b

/-- The blocked message template of `handleMovement` (line 191):
`Cannot move {direction} - blocked by {terrainName | 'boundary'}`.
(When the target is in bounds its terrain lookup always succeeds; the
`"undefined"` fallback is unreachable.) -/
def blockedMessage (d : Direction) (target : Position) : String :=
  let dn := d.toName
  let bn := if isInBounds target then
      match terrainAt? target with
      | some t => terrainNames t
      | none => "undefined"
    else "boundary"
  "Cannot move " ++ dn ++ " - blocked by " ++ bn

/-- Function `handleMovement` of `worker.ts` (lines 172-214).  `now` is the
`Date.now()` value during the call.  The function first sets
`lastActivityTime`, `idleState := ACTIVE` and `facing`, then branches on
the direction and `canMove`.  A thrown JavaScript exception (invalid
direction; or reading `terrainMap[y]` with the current row index out of
range, modelled uniformly as a thrown `TypeError`) is returned as
`Except.error` together with the state as mutated so far; `onmessage`'s
`catch` turns it into an Error response. -/
def handleMovement (now : ℤ) (d : Direction) (gs : WGameState) :
    WGameState × Except String WorkerResponse :=
  let gs1 : WGameState :=
    { gs with lastActivityTime := now, idleState := IdleState.active, facing := d }
  if d.isMovement then
    let newPos := applyDir gs1.position d
    match terrainAt? gs1.position with
    | none => (gs1, Except.error "TypeError")
    | some oldT =>
      if canMove newPos then
        match terrainAt? newPos with
        | some newT =>
          let msg := movedMessage d oldT newT
          let gs2 : WGameState :=
            { gs1 with position := newPos, currentTerrain := newT,
                       terrain := newT, message := msg }
          (gs2, Except.ok ⟨Status.processing, some msg, some gs2, true, none, none, none⟩)
        | none => (gs1, Except.error "TypeError")
      else
        let msg := blockedMessage d newPos
        let gs2 : WGameState := { gs1 with message := msg }
        (gs2, Except.ok ⟨Status.error, some msg, some gs2, true, none, none, none⟩)
  else
    let dn := d.toName
    (gs1, Except.error ("Invalid direction: " ++ dn))

/-- The interval callback installed by `startIdleCheck` (`worker.ts`
lines 54-76): recompute the idle state from the time since the last
activity and emit a state-changed notification only when it differs. -/
def idleTick (now : ℤ) (gs : WGameState) : WGameState × List WorkerResponse :=
  let s := computeIdleState (now - gs.lastActivityTime)
  if s ≠ gs.idleState then
    let gs' : WGameState := { gs with idleState := s }
    let sn := s.toName
    (gs', [⟨Status.processing, some ("State changed to " ++ sn), some gs', false, none, none, none⟩])
  else (gs, [])

/-- An incoming `WorkerMessage` (`worker.ts` lines 9-13). -/
structure WorkerMessage where
  task : String
  direction : Option Direction
  time : Option ℚ
deriving DecidableEq, Repr

/-- The demo progress task `longRunningFunction` (`worker.ts` lines
241-256) as the ordered list of responses it posts: one Processing
progress event per loop iteration (`step = i+1`, `total = 100`) followed
by one Finished event with `result = time * total`.  (The real function
is `async` and interleaves with message handling; only its own event
stream is modelled.) -/
def longRunningFunction (time : ℚ) : List WorkerResponse :=
  let total : ℕ := 100
  ((List.range total).map fun i =>
    ⟨Status.processing, none, none, false, some (i + 1), some total, none⟩)
  ++ [⟨Status.finished, some ("Task finished with time = " ++ toString time), none, false,
       none, none, some (time * total)⟩]

/-- Function `handleGameStart` (`worker.ts` lines 156-165) restricted to its
synchronous effect on the game state and its immediate response:
`startIdleCheck()` only resets the timer, then the current `gameState`
and the terrain map are posted with message `Game initialized`.  The
asynchronous `longRunningFunction(time)` it spawns is modelled separately
by `longRunningFunction`. -/
def handleGameStart (gs : WGameState) : WGameState × List WorkerResponse :=
  (gs, [⟨Status.processing, some "Game initialized", some gs, true, none, none, none⟩])

/-- The `self.onmessage` handler of `worker.ts` (lines 129-150): stamps
`lastActivityTime := now`, dispatches on the task string, and converts a
thrown error into an Error-status response via the surrounding
`try`/`catch`. -/
def onmessage (now : ℤ) (msg : WorkerMessage) (gs : WGameState) :
    WGameState × List WorkerResponse :=
  let gs1 : WGameState := { gs with lastActivityTime := now }
  if msg.task = "START" then
    handleGameStart gs1
  else if msg.task = "GAME_UPDATE" then
    match msg.direction with
    | some d =>
      match handleMovement now d gs1 with
      | (gs2, Except.ok r) => (gs2, [r])
      | (gs2, Except.error e) => (gs2, [⟨Status.error, some e, none, false, none, none, none⟩])
    | none => (gs1, [])
  else
    let task := msg.task
    (gs1, [⟨Status.error, some ("Unknown task: " ++ task), none, false, none, none, none⟩])

/-- A render-side cloud particle (the `Cloud` interface of the `Game`
module). -/
structure Cloud where
  x : ℚ
  y : ℚ
  speed : ℚ
  size : ℚ
  opacity : ℚ
deriving DecidableEq, Repr

/-- Constant `CLOUD_COUNT` of the `Game` class. -/
def cloudCount : ℕ := 8

/-- Constant `MIN_CLOUD_SPEED` of the `Game` class. -/
def minCloudSpeed : ℚ := 5 / 100

/-- Constant `MAX_CLOUD_SPEED` of the `Game` class. -/
def maxCloudSpeed : ℚ := 2 / 10

/-- One batch of `Math.random()` draws consumed by `createCloud`
(size, x-jitter, y, speed, opacity, in evaluation order). -/
structure CloudRand where
  size : ℚ
  x : ℚ
  y : ℚ
  speed : ℚ
  opacity : ℚ

/-- Validity of random draws: `Math.random()` returns values in `[0, 1)`. -/
def CloudRand.valid (r : CloudRand) : Prop :=
  0 ≤ r.size ∧ r.size < 1 ∧ 0 ≤ r.x ∧ r.x < 1 ∧ 0 ≤ r.y ∧ r.y < 1 ∧
    0 ≤ r.speed ∧ r.speed < 1 ∧ 0 ≤ r.opacity ∧ r.opacity < 1

/-- Method `Game.createCloud` (lines 586-598): a fresh cloud for slot `index`;
with `forceOffscreen` its x coordinate is `-size`, otherwise a slot-based
position with jitter. -/
def createCloud (canvasW canvasH : ℚ) (r : CloudRand) (index : ℕ)
    (forceOffscreen : Bool) : Cloud :=
  let size := 60 + r.size * 100
  let x := if forceOffscreen then -size
           else (index : ℚ) * (canvasW / (cloudCount : ℚ)) + r.x * 200
  { x := x
    y := r.y * (canvasH * (4 / 10))
    speed := minCloudSpeed + r.speed * (maxCloudSpeed - minCloudSpeed)
    size := size
    opacity := 4 / 10 + r.opacity * (3 / 10) }

/-- Method `Game.initializeClouds` (lines 600-604): `CLOUD_COUNT` fresh clouds,
one per slot.  `rngFor i` is the batch of random draws consumed while
creating slot `i`. -/
def initializeClouds (canvasW canvasH : ℚ) (rngFor : ℕ → CloudRand) : List Cloud :=
  (List.range cloudCount).map fun i => createCloud canvasW canvasH (rngFor i) i false

/-- The per-cloud body of `Game.updateClouds`'s `forEach` (lines 610-618):
drift right by `speed`; when the drifted x exceeds
`canvas.width + size`, replace the slot with a forced-offscreen cloud. -/
def updateCloudsList (canvasW canvasH : ℚ) (rngFor : ℕ → CloudRand)
    (clouds : List Cloud) : List Cloud :=
  clouds.mapIdx fun i c =>
    let cx := c.x + c.speed
    if cx > canvasW + c.size then createCloud canvasW canvasH (rngFor i) i true
    else { c with x := cx }

/-- The `animationSettings` object of the `Game` class. -/
structure AnimationSettings where
  enableClouds : Bool
  enableWaves : Bool
  enableRiver : Bool
deriving DecidableEq, Repr

/-- The render-side `GameState` of `types.ts` held in `Game.state`
(the optional `theme` field carries no game semantics and is omitted). -/
structure RenderGameState where
  position : Position
  facing : Direction
  isMoving : Bool
  terrain : TerrainType
  status : Status
  message : String
  isStarted : Bool
  idleState : IdleState
  lastActivityTime : ℤ
deriving DecidableEq, Repr

/-- The mutable fields of the `Game` render-controller class (canvas,
worker and 2D-context handles carry no state of their own beyond the
canvas dimensions, kept as `canvasW`/`canvasH`). -/
structure Game where
  lastFrameTime : ℚ
  frameThrottle : ℚ
  movementCooldown : Bool
  state : RenderGameState
  currentTerrain : TerrainType
  isRunning : Bool
  riverOffset : ℚ
  animationSettings : AnimationSettings
  terrainMap : Option (List (List TerrainType))
  clouds : List Cloud
  cloudOffset : ℚ
  waterOffset : ℚ
  lastAnimationUpdate : ℚ
  canvasW : ℚ
  canvasH : ℚ
deriving DecidableEq, Repr

/-- Assignment `this.frameThrottle = 1000 / (config.fps || 30)` in the `Game`
constructor (line 345): `fps` absent or `0` falls back to 30. -/
def constructorFrameThrottle (fps : Option ℚ) : ℚ :=
  1000 / (match fps with
          | none => 30
          | some f => if f = 0 then 30 else f)

/-- The `Game` constructor (lines 341-363), with `t0` the `Date.now()`
at construction. -/
def Game.init (canvasW canvasH : ℚ) (fps : Option ℚ) (t0 : ℤ)
    (rngFor : ℕ → CloudRand) : Game :=
  { lastFrameTime := 0
    frameThrottle := constructorFrameThrottle fps
    movementCooldown := false
    state := { position := ⟨2, 2⟩, facing := .down, isMoving := false,
               terrain := .G, status := .idle, message := "",
               isStarted := false, idleState := .active, lastActivityTime := t0 }
    currentTerrain := .G
    isRunning := false
    riverOffset := 0
    animationSettings := ⟨false, false, false⟩
    terrainMap := none
    clouds := initializeClouds canvasW canvasH rngFor
    cloudOffset := 0
    waterOffset := 0
    lastAnimationUpdate := 0
    canvasW := canvasW
    canvasH := canvasH }

/-- Method `Game.getFrameThrottleForState` (lines 438-445): frame-throttle
interval per idle state (the `default` case covers `active`). -/
def getFrameThrottleForState : IdleState → ℚ
  | .resting => 1000 / 20
  | .idle => 1000 / 10
  | .sleeping => 1000 / 5
  | .active => 1000 / 30

/-- Method `Game.updateClouds` (lines 606-619): a no-op unless clouds are
enabled; otherwise advances `cloudOffset` and drifts/recycles every
cloud. -/
def Game.updateClouds (g : Game) (rngFor : ℕ → CloudRand) : Game :=
  if !g.animationSettings.enableClouds then g
  else
    { g with cloudOffset := g.cloudOffset + 2 / 10,
             clouds := updateCloudsList g.canvasW g.canvasH rngFor g.clouds }

/-- Per-tick environment of the frame loop: `performance.now()`,
`Date.now()`, the random draws available to cloud recycling, and the
wave/river phase values `(nowPerf/1000) % 2π` and `(nowPerf/800) % 2π`
(kept abstract because π is irrational; no claim depends on them). -/
structure FrameEnv where
  nowPerf : ℚ
  dateNow : ℤ
  rngFor : ℕ → CloudRand
  wavePhase : ℚ
  riverPhase : ℚ

/-- Method `Game.update` (lines 495-517): refresh activity while moving, then,
when more than 16ms have passed since the last animation update, advance
clouds and the enabled wave/river phases. -/
def Game.update (g : Game) (env : FrameEnv) : Game :=
  let g1 := if g.state.isMoving then
      { g with state := { g.state with lastActivityTime := env.dateNow,
                                       idleState := IdleState.active } }
    else g
  if env.nowPerf - g1.lastAnimationUpdate > 16 then
    let g2 := g1.updateClouds env.rngFor
    let g3 := if g2.animationSettings.enableWaves then
        { g2 with waterOffset := env.wavePhase } else g2
    let g4 := if g3.animationSettings.enableRiver then
        { g3 with riverOffset := env.riverPhase } else g3
    { g4 with lastAnimationUpdate := env.nowPerf }
  else g1

/-- One `Game.gameLoop` tick (lines 479-493): when running, always
`update`, and redraw (returning `true`) exactly when
`timestamp - lastFrameTime ≥ frameThrottle`, also moving
`lastFrameTime` forward. -/
def Game.gameLoopTick (g : Game) (timestamp : ℚ) (env : FrameEnv) :
    Game × Bool :=
  if !g.isRunning then (g, false)
  else
    let delta := timestamp - g.lastFrameTime
    let g1 := g.update env
    if delta ≥ g.frameThrottle then ({ g1 with lastFrameTime := timestamp }, true)
    else (g1, false)

/-- The argument object of `Game.setAnimationSettings` (all three flags
optional); `none` models an absent property. -/
structure SettingsArg where
  enableClouds : Option Bool
  enableWaves : Option Bool
  enableRiver : Option Bool
deriving DecidableEq, Repr

/-- Method `Game.setAnimationSettings` (lines 542-564): spread-merge the
argument over the current settings, then reset each animation phase
whose flag is falsy *in the argument object* (absent or `false`):
clouds → `cloudOffset := 0` and re-created cloud set, waves →
`waterOffset := 0`, river → `riverOffset := 0`. -/
def Game.setAnimationSettings (g : Game) (rngFor : ℕ → CloudRand)
    (s : SettingsArg) : Game :=
  let merged : AnimationSettings :=
    { enableClouds := s.enableClouds.getD g.animationSettings.enableClouds
      enableWaves := s.enableWaves.getD g.animationSettings.enableWaves
      enableRiver := s.enableRiver.getD g.animationSettings.enableRiver }
  let g1 : Game := { g with animationSettings := merged }
  let g2 : Game := if s.enableClouds ≠ some true then
      { g1 with cloudOffset := 0,
                clouds := initializeClouds g1.canvasW g1.canvasH rngFor }
    else g1
  let g3 : Game := if s.enableWaves ≠ some true then
      { g2 with waterOffset := 0 } else g2
  if s.enableRiver ≠ some true then { g3 with riverOffset := 0 } else g3

/-- Iteration: `n` repetitions of the same `Move(d)` command (each one call of
`handleMovement`), all at clock value `now`. -/
def iterMove (now : ℤ) (d : Direction) : ℕ → WGameState → WGameState
  | 0, gs => gs
  | n + 1, gs => (handleMovement now d (iterMove now d n gs)).1

/-- Positions the player can occupy: the spawn `(2,2)` and everything
obtained from it by moves accepted by `canMove`. -/
inductive Reachable : Position → Prop
  | spawn : Reachable ⟨2, 2⟩
  | step (p : Position) (d : Direction) (hd : d.isMovement = true)
      (hr : Reachable p) (hc : canMove (applyDir p d) = true) :
      Reachable (applyDir p d)

/-- Iteration: `n` cloud-update ticks (`Game.updateClouds`), the tick `k` drawing
its randomness from `rngSeq k`. -/
def iterClouds (rngSeq : ℕ → ℕ → CloudRand) (g : Game) : ℕ → Game
  | 0 => g
  | n + 1 => (iterClouds rngSeq g n).updateClouds (rngSeq n)

/-- A fixed random source used to instantiate witnesses. -/
def constRand : ℕ → CloudRand := fun _ => ⟨1/2, 1/2, 1/2, 1/2, 1/2⟩

/-- A running `Game` (default fps, 800×600 canvas) whose last known idle
state is Sleeping, used to exercise the frame-throttle decision. -/
def sleepingGame : Game :=
  { Game.init 800 600 none 0 constRand with
    isRunning := true
    state := { (Game.init 800 600 none 0 constRand).state with
               idleState := IdleState.sleeping } }

/-! ### Basic facts about the grid and movement validation -/

theorem terrainMap_lookup_isSome :
    ∀ y, y < 15 → ∀ x, x < 20 →
      (((terrainMap.get? y).bind fun row => row.get? x)).isSome = true := by
  decide

theorem isInBounds_iff (p : Position) :
    isInBounds p = true ↔ 0 ≤ p.x ∧ p.x < 20 ∧ 0 ≤ p.y ∧ p.y < 15 := by
  have h20 : (terrainMap.headD []).length = 20 := rfl
  have h15 : terrainMap.length = 15 := rfl
  unfold isInBounds
  rw [h20, h15]
  simp only [Bool.and_eq_true, decide_eq_true_eq]
  constructor
  · rintro ⟨⟨⟨h1, h2⟩, h3⟩, h4⟩
    exact ⟨h1, by exact_mod_cast h2, h3, by exact_mod_cast h4⟩
  · rintro ⟨h1, h2, h3, h4⟩
    exact ⟨⟨⟨h1, by exact_mod_cast h2⟩, h3⟩, by exact_mod_cast h4⟩

theorem terrainAt?_isSome (p : Position) (h : isInBounds p = true) :
    ∃ t, terrainAt? p = some t := by
  rw [isInBounds_iff] at h
  obtain ⟨hx0, hx, hy0, hy⟩ := h
  unfold terrainAt?
  rw [if_pos ⟨hx0, hy0⟩]
  have hyn : p.y.toNat < 15 := by omega
  have hxn : p.x.toNat < 20 := by omega
  exact Option.isSome_iff_exists.mp (terrainMap_lookup_isSome p.y.toNat hyn p.x.toNat hxn)

theorem canMove_iff (p : Position) :
    canMove p = true ↔
      isInBounds p = true ∧
        ∃ t, terrainAt? p = some t ∧ (terrainProperties t).walkable = true := by
  unfold canMove
  by_cases hb : isInBounds p = true
  · obtain ⟨t, ht⟩ := terrainAt?_isSome p hb
    simp [hb, ht]
  · simp [hb]

theorem applyDir_ne (p : Position) (d : Direction) (hd : d.isMovement = true) :
    applyDir p d ≠ p := by
  obtain ⟨px, py⟩ := p
  cases d <;>
    simp_all [applyDir, Direction.isMovement, Position.mk.injEq]

theorem handleMovement_blocked_eq (now : ℤ) (d : Direction) (gs : WGameState)
    (hd : d.isMovement = true) (oldT : TerrainType)
    (hold : terrainAt? gs.position = some oldT)
    (hblock : canMove (applyDir gs.position d) = false) :
    handleMovement now d gs =
      ({ gs with lastActivityTime := now, idleState := IdleState.active,
                 facing := d, message := blockedMessage d (applyDir gs.position d) },
       Except.ok ⟨Status.error,
          some (blockedMessage d (applyDir gs.position d)),
          some { gs with lastActivityTime := now, idleState := IdleState.active,
                         facing := d, message := blockedMessage d (applyDir gs.position d) },
          true, none, none, none⟩) := by
  unfold handleMovement
  simp [hd, hold, hblock]

theorem handleMovement_success_eq (now : ℤ) (d : Direction) (gs : WGameState)
    (hd : d.isMovement = true) (oldT newT : TerrainType)
    (hold : terrainAt? gs.position = some oldT)
    (hnew : terrainAt? (applyDir gs.position d) = some newT)
    (hcm : canMove (applyDir gs.position d) = true) :
    handleMovement now d gs =
      ({ gs with lastActivityTime := now, idleState := IdleState.active,
                 facing := d, position := applyDir gs.position d,
                 currentTerrain := newT, terrain := newT,
                 message := movedMessage d oldT newT },
       Except.ok ⟨Status.processing,
          some (movedMessage d oldT newT),
          some { gs with lastActivityTime := now, idleState := IdleState.active,
                         facing := d, position := applyDir gs.position d,
                         currentTerrain := newT, terrain := newT,
                         message := movedMessage d oldT newT },
          true, none, none, none⟩) := by
  unfold handleMovement
  simp [hd, hold, hnew, hcm]

/-! ### Claims -/

/-- C1: for every in-bounds position and movement direction,
`handleMovement(d)` moves the player to `p + unit(d)` if and only if the
target is within the map bounds and its terrain is walkable per
`terrainProperties`; otherwise an Error-status event is emitted and the
position stays at `p`. -/
theorem claim_C1 (now : ℤ) (gs : WGameState) (d : Direction)
    (hpos : isInBounds gs.position = true) (hd : d.isMovement = true) :
    ((handleMovement now d gs).1.position = applyDir gs.position d ↔
        isInBounds (applyDir gs.position d) = true ∧
          ∃ t, terrainAt? (applyDir gs.position d) = some t ∧
            (terrainProperties t).walkable = true) ∧
    (¬(isInBounds (applyDir gs.position d) = true ∧
        ∃ t, terrainAt? (applyDir gs.position d) = some t ∧
          (terrainProperties t).walkable = true) →
      (handleMovement now d gs).1.position = gs.position ∧
        ∃ r, (handleMovement now d gs).2 = Except.ok r ∧ r.status = Status.error) := by
  obtain ⟨oldT, hold⟩ := terrainAt?_isSome gs.position hpos
  by_cases hcm : canMove (applyDir gs.position d) = true
  · obtain ⟨hb, t, ht, hw⟩ := (canMove_iff _).mp hcm
    rw [handleMovement_success_eq now d gs hd oldT t hold ht hcm]
    refine ⟨⟨fun _ => ⟨hb, t, ht, hw⟩, fun _ => rfl⟩, fun hcon => ?_⟩
    exact absurd ⟨hb, t, ht, hw⟩ hcon
  · have hblock : canMove (applyDir gs.position d) = false := by
      revert hcm; cases canMove (applyDir gs.position d) <;> simp
    rw [handleMovement_blocked_eq now d gs hd oldT hold hblock]
    refine ⟨⟨fun h => ?_, fun hcond => ?_⟩, fun _ => ⟨rfl, ⟨_, rfl, rfl⟩⟩⟩
    · exact absurd h.symm (applyDir_ne gs.position d hd)
    · exact absurd ((canMove_iff _).mpr ⟨hcond.1, hcond.2⟩) hcm

/-- Witness for C1 at a concrete input: from the spawn `(2,2)` a
`Move(down)` lands on `(2,3)`. -/
theorem claim_C1_witness :
    (handleMovement 5 Direction.down (initialWorkerState 0)).1.position = ⟨2, 3⟩ := by
  have h := claim_C1 5 (initialWorkerState 0) Direction.down (by decide) (by decide)
  have hcond : isInBounds (applyDir (initialWorkerState 0).position Direction.down) = true ∧
      ∃ t, terrainAt? (applyDir (initialWorkerState 0).position Direction.down) = some t ∧
        (terrainProperties t).walkable = true :=
    ⟨by decide, TerrainType.G, by decide, by decide⟩
  exact (h.1.mpr hcond).trans (by decide)

/-- C2 fails on the code: `handleGameStart` never resets `gameState`, so a
Start processed after a successful `Move(down)` from spawn emits a snapshot
at position `(2,3)`, not `(2,2)`. -/
theorem claim_C2_counterexample :
    (((onmessage 10 ⟨"START", none, none⟩
          (onmessage 5 ⟨"GAME_UPDATE", some Direction.down, none⟩
            (initialWorkerState 0)).1).2.head?.bind
        fun r => r.gameState).map fun s => s.position) = some ⟨2, 3⟩ ∧
      (⟨2, 3⟩ : Position) ≠ ⟨2, 2⟩ := by decide

/-- C2 (amended): a Start command does not reinitialize `PlayerState`; it
emits one snapshot of the current state with only `lastActivityTime`
stamped to the current clock.  Consequently, from the worker's initial
state the snapshot has position `(2,2)`, facing down, idle state Active,
and `currentTerrain` equal to the map's grid value at `(2,2)`. -/
theorem claim_C2 (now : ℤ) (gs : WGameState) :
    onmessage now ⟨"START", none, none⟩ gs =
      ({ gs with lastActivityTime := now },
       [⟨Status.processing, some "Game initialized",
         some { gs with lastActivityTime := now }, true, none, none, none⟩]) ∧
    ∀ t0 : ℤ, ∃ s : WGameState,
      (onmessage now ⟨"START", none, none⟩ (initialWorkerState t0)).2 =
        [⟨Status.processing, some "Game initialized", some s, true, none, none, none⟩] ∧
      s.position = ⟨2, 2⟩ ∧ s.facing = Direction.down ∧
      s.idleState = IdleState.active ∧ terrainAt? ⟨2, 2⟩ = some s.currentTerrain := by
  constructor
  · rfl
  · intro t0
    exact ⟨{ initialWorkerState t0 with lastActivityTime := now },
      rfl, rfl, rfl, rfl, rfl⟩

/-- C3 fails on the code: `self.onmessage` stamps
`gameState.lastActivityTime = Date.now()` before dispatching, so even an
unknown task alters that `PlayerState` field. -/
theorem claim_C3_counterexample :
    (onmessage 1000 ⟨"FOO", none, none⟩ (initialWorkerState 0)).1.lastActivityTime ≠
      (initialWorkerState 0).lastActivityTime := by decide

/-- C3 (amended): a message whose task is neither `START` nor
`GAME_UPDATE` produces exactly one Error-status event whose message
carries the offending task name, and leaves every `PlayerState` field
unchanged except `lastActivityTime`, which is stamped with the current
clock. -/
theorem claim_C3 (now : ℤ) (msg : WorkerMessage) (gs : WGameState)
    (h1 : msg.task ≠ "START") (h2 : msg.task ≠ "GAME_UPDATE") :
    onmessage now msg gs =
      ({ gs with lastActivityTime := now },
       [⟨Status.error, some ("Unknown task: " ++ msg.task),
         none, false, none, none, none⟩]) := by
  unfold onmessage
  simp [h1, h2]

/-- Witness for C3 at the concrete unknown task `FOO`. -/
theorem claim_C3_witness :
    onmessage 7 ⟨"FOO", none, none⟩ (initialWorkerState 0) =
      ({ initialWorkerState 0 with lastActivityTime := 7 },
       [⟨Status.error, some "Unknown task: FOO", none, false, none, none, none⟩]) := by
  have h := claim_C3 7 ⟨"FOO", none, none⟩ (initialWorkerState 0)
    (by decide) (by decide)
  exact h.trans (by decide)

/-- C4: the idle-decay computation yields Sleeping at ≥ 30000ms, Idle at
≥ 5000ms, Resting at ≥ 200ms and Active below 200ms; it is monotone in
elapsed time along Active → Resting → Idle → Sleeping; and any movement
command resets the idle state directly to Active. -/
theorem claim_C4 :
    (∀ t : ℤ,
      (computeIdleState t = IdleState.sleeping ↔ 30000 ≤ t) ∧
      (computeIdleState t = IdleState.idle ↔ 5000 ≤ t ∧ t < 30000) ∧
      (computeIdleState t = IdleState.resting ↔ 200 ≤ t ∧ t < 5000) ∧
      (computeIdleState t = IdleState.active ↔ t < 200)) ∧
    (∀ s t : ℤ, s ≤ t → (computeIdleState s).rank ≤ (computeIdleState t).rank) ∧
    (∀ (now : ℤ) (d : Direction) (gs : WGameState), d.isMovement = true →
      (handleMovement now d gs).1.idleState = IdleState.active) := by
  refine ⟨fun t => ?_, fun s t hst => ?_, fun now d gs hd => ?_⟩
  · unfold computeIdleState sleepingThreshold idleThreshold restingThreshold
    split_ifs <;> simp_all <;> omega
  · unfold computeIdleState sleepingThreshold idleThreshold restingThreshold
    split_ifs <;> simp [IdleState.rank] <;> omega
  · unfold handleMovement
    simp only [hd, if_true]
    split
    · rfl
    · split
      · split
        · rfl
        · rfl
      · rfl

/-- Witness for C4: the thresholds at 6000ms give Idle, and a concrete
movement resets to Active. -/
theorem claim_C4_witness :
    computeIdleState 6000 = IdleState.idle ∧
    (handleMovement 5 Direction.up (initialWorkerState 0)).1.idleState = IdleState.active :=
  ⟨(claim_C4.1 6000).2.1.mpr (by decide),
   claim_C4.2.2 5 Direction.up (initialWorkerState 0) (by decide)⟩

/-- C5: against a blocked target (out of bounds or non-walkable),
repeating `Move(d)` any number of times never changes the position, and
every repetition produces the same Error-status event whose message is
`Cannot move {direction} - blocked by {terrainName}` when the target is
in bounds and `Cannot move {direction} - blocked by boundary` when it is
out of bounds. -/
theorem claim_C5 (now : ℤ) (d : Direction) (gs : WGameState)
    (hd : d.isMovement = true) (hpos : isInBounds gs.position = true)
    (hblock : canMove (applyDir gs.position d) = false) :
    (∀ n, (iterMove now d n gs).position = gs.position) ∧
    (∀ n, ∃ r, (handleMovement now d (iterMove now d n gs)).2 = Except.ok r ∧
        r.status = Status.error ∧
        r.message = some (blockedMessage d (applyDir gs.position d))) ∧
    (isInBounds (applyDir gs.position d) = true →
      ∃ t, terrainAt? (applyDir gs.position d) = some t ∧
        blockedMessage d (applyDir gs.position d) =
          "Cannot move " ++ d.toName ++ " - blocked by " ++ terrainNames t) ∧
    (isInBounds (applyDir gs.position d) = false →
      blockedMessage d (applyDir gs.position d) =
        "Cannot move " ++ d.toName ++ " - blocked by " ++ "boundary") := by
  have key : ∀ n, (iterMove now d n gs).position = gs.position := by
    intro n
    induction n with
    | zero => rfl
    | succ n ih =>
      have hb2 : isInBounds (iterMove now d n gs).position = true := by
        rw [ih]; exact hpos
      obtain ⟨oldT, hold⟩ := terrainAt?_isSome _ hb2
      have hblock2 : canMove (applyDir (iterMove now d n gs).position d) = false := by
        rw [ih]; exact hblock
      show (handleMovement now d (iterMove now d n gs)).1.position = gs.position
      rw [handleMovement_blocked_eq now d _ hd oldT hold hblock2]
      exact ih
  refine ⟨key, fun n => ?_, fun hbt => ?_, fun hbf => ?_⟩
  · have hb2 : isInBounds (iterMove now d n gs).position = true := by
      rw [key n]; exact hpos
    obtain ⟨oldT, hold⟩ := terrainAt?_isSome _ hb2
    have hblock2 : canMove (applyDir (iterMove now d n gs).position d) = false := by
      rw [key n]; exact hblock
    rw [handleMovement_blocked_eq now d _ hd oldT hold hblock2]
    exact ⟨_, rfl, rfl, by rw [key n]⟩
  · obtain ⟨t, ht⟩ := terrainAt?_isSome _ hbt
    refine ⟨t, ht, ?_⟩
    unfold blockedMessage
    simp [hbt, ht]
  · unfold blockedMessage
    simp [hbf]

/-- Witness for C5: from `(1,1)`, `Move(left)` targets the Water cell
`(0,1)` and three repetitions leave the position at `(1,1)`. -/
theorem claim_C5_witness :
    (iterMove 5 Direction.left 3
      { initialWorkerState 0 with position := ⟨1, 1⟩ }).position = ⟨1, 1⟩ :=
  (claim_C5 5 Direction.left { initialWorkerState 0 with position := ⟨1, 1⟩ }
    (by decide) (by decide) (by decide)).1 3

/-- C6: for every step delay `t` the demo progress task posts exactly 101
events: the first 100 are Processing progress events with steps 1..100 in
order, and the single Finished event (in last position) carries
`result = t × 100`; at `t = 10` the Finished result is 1000. -/
theorem claim_C6 (t : ℚ) :
    (longRunningFunction t).length = 101 ∧
    (∀ i : ℕ, i < 100 → (longRunningFunction t)[i]? =
      some ⟨Status.processing, none, none, false, some (i + 1), some 100, none⟩) ∧
    ((longRunningFunction t).filter fun r => decide (r.status = Status.finished)) =
      [⟨Status.finished, some ("Task finished with time = " ++ toString t),
        none, false, none, none, some (t * 100)⟩] ∧
    (longRunningFunction t)[100]? =
      some ⟨Status.finished, some ("Task finished with time = " ++ toString t),
        none, false, none, none, some (t * 100)⟩ ∧
    ((longRunningFunction 10).filter fun r => decide (r.status = Status.finished)) =
      [⟨Status.finished, some "Task finished with time = 10",
        none, false, none, none, some 1000⟩] := by
  have hfil : ∀ s : ℚ,
      ((longRunningFunction s).filter fun r => decide (r.status = Status.finished)) =
        [⟨Status.finished, some ("Task finished with time = " ++ toString s),
          none, false, none, none, some (s * 100)⟩] := by
    intro s
    simp only [longRunningFunction]
    rw [List.filter_append]
    have h1 : (((List.range 100).map fun i =>
        (⟨Status.processing, none, none, false, some (i + 1), some (100:ℕ), none⟩ :
          WorkerResponse)).filter fun r => decide (r.status = Status.finished)) = [] := by
      rw [List.filter_eq_nil_iff]
      intro a ha
      obtain ⟨i, _, rfl⟩ := List.mem_map.mp ha
      simp
    rw [h1]
    simp
  have h10 := hfil 10
  have e1 : ("Task finished with time = " ++ toString (10:ℚ)) =
      "Task finished with time = 10" := by decide
  have e2 : (10:ℚ) * 100 = 1000 := by norm_num
  rw [e1, e2] at h10
  refine ⟨by simp [longRunningFunction], fun i hi => ?_, hfil t, ?_, h10⟩
  · simp only [longRunningFunction]
    rw [List.getElem?_append_left (by simpa using hi), List.getElem?_map,
      List.getElem?_range hi]
    rfl
  · simp only [longRunningFunction]
    rw [List.getElem?_append_right (by simp)]
    simp

/-- Witness for C6: the fifth posted event of a delay-10 run is the
Processing event with step 5. -/
theorem claim_C6_witness :
    (longRunningFunction 10)[4]? =
      some ⟨Status.processing, none, none, false, some 5, some 100, none⟩ :=
  (claim_C6 10).2.1 4 (by norm_num)

theorem update_frameThrottle (g : Game) (env : FrameEnv) :
    (g.update env).frameThrottle = g.frameThrottle := by
  unfold Game.update Game.updateClouds
  simp [apply_ite Game.frameThrottle]

theorem gameLoopTick_draw_iff (g : Game) (ts : ℚ) (env : FrameEnv) :
    (g.gameLoopTick ts env).2 = true ↔
      g.isRunning = true ∧ g.frameThrottle ≤ ts - g.lastFrameTime := by
  unfold Game.gameLoopTick
  cases hb : g.isRunning with
  | false => simp [hb]
  | true =>
    simp only [hb, Bool.not_true, Bool.false_eq_true, if_false]
    split_ifs with h2 <;> simp [h2]

/-- C7 fails on the code: `gameLoop` redraws whenever
`delta ≥ this.frameThrottle`, and `frameThrottle` is fixed at
construction to `1000 / (fps || 30)`; `getFrameThrottleForState` encodes
the specified idle-state mapping but is never called.  Concretely, a
running game whose last known idle state is Sleeping redraws after a
34ms delta even though the claimed Sleeping throttle is 200ms. -/
theorem claim_C7_code_repro :
    (getFrameThrottleForState IdleState.active = 1000 / 30 ∧
     getFrameThrottleForState IdleState.resting = 1000 / 20 ∧
     getFrameThrottleForState IdleState.idle = 1000 / 10 ∧
     getFrameThrottleForState IdleState.sleeping = 1000 / 5) ∧
    (∀ (g : Game) (ts : ℚ) (env : FrameEnv),
      ((g.gameLoopTick ts env).2 = true ↔
        g.isRunning = true ∧ g.frameThrottle ≤ ts - g.lastFrameTime) ∧
      (g.gameLoopTick ts env).1.frameThrottle = g.frameThrottle) ∧
    (sleepingGame.gameLoopTick 34 ⟨100, 0, constRand, 0, 0⟩).2 = true ∧
    (34 : ℚ) < getFrameThrottleForState IdleState.sleeping := by
  refine ⟨⟨rfl, rfl, rfl, rfl⟩, fun g ts env => ⟨gameLoopTick_draw_iff g ts env, ?_⟩,
    ?_, by norm_num [getFrameThrottleForState]⟩
  · unfold Game.gameLoopTick
    cases hb : g.isRunning with
    | false => simp [hb]
    | true =>
      simp only [hb, Bool.not_true, Bool.false_eq_true, if_false]
      split_ifs with h2 <;> simp [update_frameThrottle]
  · norm_num [sleepingGame, Game.gameLoopTick, Game.init, Game.update,
      Game.updateClouds, constructorFrameThrottle]

/-- C8: the cloud set has exactly 8 members after initialization and
after any number of cloud-update ticks; a tick maps each slot to the
drifted cloud, except that a cloud that has passed the right edge is
replaced in the same slot by a freshly randomized forced-offscreen cloud;
and every forced-offscreen cloud has `x ≤ 0`. -/
theorem claim_C8 (canvasW canvasH : ℚ) (rng0 : ℕ → CloudRand) :
    (initializeClouds canvasW canvasH rng0).length = 8 ∧
    (∀ (g : Game) (rng : ℕ → CloudRand),
      (g.updateClouds rng).clouds.length = g.clouds.length) ∧
    (∀ (g : Game) (rngSeq : ℕ → ℕ → CloudRand) (n : ℕ),
      g.clouds.length = 8 → (iterClouds rngSeq g n).clouds.length = 8) ∧
    (∀ (g : Game) (rng : ℕ → CloudRand) (i : ℕ) (c : Cloud),
      g.animationSettings.enableClouds = true → g.clouds[i]? = some c →
      (g.updateClouds rng).clouds[i]? = some
        (if c.x + c.speed > g.canvasW + c.size
         then createCloud g.canvasW g.canvasH (rng i) i true
         else { c with x := c.x + c.speed })) ∧
    (∀ (w h : ℚ) (r : CloudRand) (i : ℕ), 0 ≤ r.size →
      (createCloud w h r i true).x ≤ 0) := by
  have hlen : ∀ (g : Game) (rng : ℕ → CloudRand),
      (g.updateClouds rng).clouds.length = g.clouds.length := by
    intro g rng
    unfold Game.updateClouds
    split_ifs with h
    · rfl
    · simp [updateCloudsList, List.length_mapIdx]
  refine ⟨by simp [initializeClouds, cloudCount], hlen,
    fun g rngSeq n hg => ?_, fun g rng i c hen hc => ?_, fun w h r i hr => ?_⟩
  · induction n with
    | zero => exact hg
    | succ n ih =>
      show ((iterClouds rngSeq g n).updateClouds (rngSeq n)).clouds.length = 8
      rw [hlen]
      exact ih
  · unfold Game.updateClouds
    simp only [hen, Bool.not_true, Bool.false_eq_true, if_false]
    simp only [updateCloudsList, List.getElem?_mapIdx, hc]
    rfl
  · unfold createCloud
    have h100 : (0:ℚ) ≤ r.size * 100 := mul_nonneg hr (by norm_num)
    simp only [if_true, if_pos]
    linarith

/-- Witness for C8: two ticks from a freshly constructed game keep 8
clouds, and a concrete forced-offscreen cloud sits at `x ≤ 0`. -/
theorem claim_C8_witness :
    (iterClouds (fun _ => constRand) (Game.init 800 600 none 0 constRand) 2).clouds.length = 8 ∧
    (createCloud 800 600 ⟨1/2, 1/2, 1/2, 1/2, 1/2⟩ 0 true).x ≤ 0 :=
  ⟨(claim_C8 800 600 constRand).2.2.1 (Game.init 800 600 none 0 constRand)
      (fun _ => constRand) 2 ((claim_C8 800 600 constRand).1),
   (claim_C8 800 600 constRand).2.2.2.2 800 600 ⟨1/2, 1/2, 1/2, 1/2, 1/2⟩ 0 (by norm_num)⟩

theorem border_cells_water :
    ∀ y, y < 15 → ∀ x, x < 20 → (y = 0 ∨ y = 14 ∨ x = 0 ∨ x = 19) →
      ((terrainMap.get? y).bind fun row => row.get? x) = some TerrainType.W := by
  decide

theorem borderWater (p : Position) (hb : isInBounds p = true)
    (hedge : p.x = 0 ∨ p.x = 19 ∨ p.y = 0 ∨ p.y = 14) :
    terrainAt? p = some TerrainType.W := by
  rw [isInBounds_iff] at hb
  obtain ⟨hx0, hx, hy0, hy⟩ := hb
  unfold terrainAt?
  rw [if_pos ⟨hx0, hy0⟩]
  refine border_cells_water p.y.toNat (by omega) p.x.toNat (by omega) ?_
  omega

theorem canMove_interior (p : Position) (h : canMove p = true) :
    1 ≤ p.x ∧ p.x ≤ 18 ∧ 1 ≤ p.y ∧ p.y ≤ 13 := by
  obtain ⟨hb, t, ht, hw⟩ := (canMove_iff p).mp h
  have hbb := (isInBounds_iff p).mp hb
  have hedge : ¬(p.x = 0 ∨ p.x = 19 ∨ p.y = 0 ∨ p.y = 14) := by
    intro hedge
    have hW : t = TerrainType.W := by
      rw [borderWater p hb hedge] at ht
      exact (Option.some.inj ht).symm
    subst hW
    simp [terrainProperties] at hw
  omega

/-- C9: every border cell of the fixed map is Water, which is not
walkable; every position reachable from the spawn `(2,2)` by accepted
moves lies strictly inside the map interior; and from any reachable
position, a movement target is always in bounds, so the `boundary`
blocked branch cannot fire. -/
theorem claim_C9 :
    (∀ p : Position, isInBounds p = true →
        (p.x = 0 ∨ p.x = 19 ∨ p.y = 0 ∨ p.y = 14) →
        terrainAt? p = some TerrainType.W ∧
          (terrainProperties TerrainType.W).walkable = false) ∧
    (∀ p : Position, Reachable p →
        1 ≤ p.x ∧ p.x ≤ 18 ∧ 1 ≤ p.y ∧ p.y ≤ 13) ∧
    (∀ (p : Position) (d : Direction), Reachable p → d.isMovement = true →
        isInBounds (applyDir p d) = true) := by
  have hreach : ∀ p, Reachable p → 1 ≤ p.x ∧ p.x ≤ 18 ∧ 1 ≤ p.y ∧ p.y ≤ 13 := by
    intro p hp
    induction hp with
    | spawn => refine ⟨by norm_num, by norm_num, by norm_num, by norm_num⟩
    | step p d hd hr hc ih => exact canMove_interior _ hc
  refine ⟨fun p hb he => ⟨borderWater p hb he, rfl⟩, hreach, fun p d hp hd => ?_⟩
  obtain ⟨h1, h2, h3, h4⟩ := hreach p hp
  rw [isInBounds_iff]
  cases d with
  | up => dsimp only [applyDir]; omega
  | down => dsimp only [applyDir]; omega
  | left => dsimp only [applyDir]; omega
  | right => dsimp only [applyDir]; omega
  | back => simp [Direction.isMovement] at hd
  | front => simp [Direction.isMovement] at hd

/-- Witness for C9: the border cell `(0,5)` is impassable Water, and from
the spawn a downward target is in bounds. -/
theorem claim_C9_witness :
    terrainAt? ⟨0, 5⟩ = some TerrainType.W ∧
      (terrainProperties TerrainType.W).walkable = false ∧
      isInBounds (applyDir ⟨2, 2⟩ Direction.down) = true :=
  ⟨(claim_C9.1 ⟨0, 5⟩ (by decide) (Or.inl rfl)).1,
   (claim_C9.1 ⟨0, 5⟩ (by decide) (Or.inl rfl)).2,
   claim_C9.2.2 ⟨2, 2⟩ Direction.down Reachable.spawn (by decide)⟩

/-- C10: `setAnimationSettings(s)` merges `s` over the current settings
and resets each animation phase whose flag is not `true` in the argument
object itself (absent or `false`) — waves → `waterOffset := 0`, river →
`riverOffset := 0`, clouds → `cloudOffset := 0` plus a re-created set of
8 clouds — even when the merged settings keep the feature enabled; no
other `Game` field is modified. -/
theorem claim_C10 (g : Game) (rngFor : ℕ → CloudRand) (s : SettingsArg) :
    (g.setAnimationSettings rngFor s).animationSettings =
      ⟨s.enableClouds.getD g.animationSettings.enableClouds,
       s.enableWaves.getD g.animationSettings.enableWaves,
       s.enableRiver.getD g.animationSettings.enableRiver⟩ ∧
    (g.setAnimationSettings rngFor s).waterOffset =
      (if s.enableWaves = some true then g.waterOffset else 0) ∧
    (g.setAnimationSettings rngFor s).riverOffset =
      (if s.enableRiver = some true then g.riverOffset else 0) ∧
    (g.setAnimationSettings rngFor s).cloudOffset =
      (if s.enableClouds = some true then g.cloudOffset else 0) ∧
    (g.setAnimationSettings rngFor s).clouds =
      (if s.enableClouds = some true then g.clouds
       else initializeClouds g.canvasW g.canvasH rngFor) ∧
    (s.enableClouds = some true ∨
      (g.setAnimationSettings rngFor s).clouds.length = 8) ∧
    (g.setAnimationSettings rngFor s).lastFrameTime = g.lastFrameTime ∧
    (g.setAnimationSettings rngFor s).frameThrottle = g.frameThrottle ∧
    (g.setAnimationSettings rngFor s).movementCooldown = g.movementCooldown ∧
    (g.setAnimationSettings rngFor s).state = g.state ∧
    (g.setAnimationSettings rngFor s).currentTerrain = g.currentTerrain ∧
    (g.setAnimationSettings rngFor s).isRunning = g.isRunning ∧
    (g.setAnimationSettings rngFor s).terrainMap = g.terrainMap ∧
    (g.setAnimationSettings rngFor s).lastAnimationUpdate = g.lastAnimationUpdate ∧
    (g.setAnimationSettings rngFor s).canvasW = g.canvasW ∧
    (g.setAnimationSettings rngFor s).canvasH = g.canvasH := by
  by_cases hc : s.enableClouds = some true <;>
    by_cases hw : s.enableWaves = some true <;>
      by_cases hr2 : s.enableRiver = some true <;>
        simp [Game.setAnimationSettings, hc, hw, hr2, initializeClouds, cloudCount]

end PixelGame
